import Mathlib

set_option maxRecDepth 8192

namespace UUIDv47

/-- A 128-bit key: two unsigned 64-bit integers (from `src/key-management.ts` /
`types.ts`: `UUIDv47Key = { k0: bigint; k1: bigint }`). -/
structure UUIDv47Key where
  k0 : Nat
  k1 : Nat

/-- Byte read `buffer[i]` on a JS `Buffer` modelled as a list of byte values. -/
def byteAt (l : List Nat) (i : Nat) : Nat := l.getD i 0

/-- `rotateLeft64` from `src/byte-operations.ts`:
`((value << bits) | (value >> (64 - bits))) & 0xffffffffffffffff`. -/
def rotateLeft64 (value : Nat) (bits : Nat) : Nat :=
  ((value <<< bits) ||| (value >>> (64 - bits))) &&& 0xffffffffffffffff

/-- Node's `Buffer.readBigUInt64LE(offset)` (used by `readUInt64LE` in
`src/byte-operations.ts`): the 64-bit value formed by bytes
`offset .. offset+7` in little-endian order. -/
def readUInt64LE (l : List Nat) (offset : Nat) : Nat :=
  byteAt l offset |||
  (byteAt l (offset + 1)) <<< 8 |||
  (byteAt l (offset + 2)) <<< 16 |||
  (byteAt l (offset + 3)) <<< 24 |||
  (byteAt l (offset + 4)) <<< 32 |||
  (byteAt l (offset + 5)) <<< 40 |||
  (byteAt l (offset + 6)) <<< 48 |||
  (byteAt l (offset + 7)) <<< 56

/-- The four 64-bit SipHash state words `v0..v3` (the mutable local
variables of `src/sip-hash.ts`). -/
structure SipState where
  v0 : Nat
  v1 : Nat
  v2 : Nat
  v3 : Nat

/-- `sipRoundInlined` from `src/sip-hash.ts`, the SipHash compression round:
sequential reassignments become a `let` chain. `QWORD = 0xffffffffffffffff`. -/
def sipRoundInlined (s : SipState) : SipState :=
  let v0 := (s.v0 + s.v1) &&& 0xffffffffffffffff
  let v2 := (s.v2 + s.v3) &&& 0xffffffffffffffff
  let v1 := rotateLeft64 s.v1 13
  let v3 := rotateLeft64 s.v3 16
  let v1 := v1 ^^^ v0
  let v3 := v3 ^^^ v2
  let v0 := rotateLeft64 v0 32
  let v2 := (v2 + v1) &&& 0xffffffffffffffff
  let v0 := (v0 + v3) &&& 0xffffffffffffffff
  let v1 := rotateLeft64 v1 17
  let v3 := rotateLeft64 v3 21
  let v1 := v1 ^^^ v2
  let v3 := v3 ^^^ v0
  let v2 := rotateLeft64 v2 32
  ⟨v0, v1, v2, v3⟩

/-- The full-block loop of `computeSipHash` (`src/sip-hash.ts`): for each of
`count` 8-byte blocks, XOR the little-endian block into v3, run two rounds,
XOR it into v0, and advance `offset` by 8.  Returns the final state and the
final offset (the source's mutable `offset` after the loop). -/
def processBlocks (input : List Nat) : Nat → Nat → SipState → SipState × Nat
  | 0, offset, st => (st, offset)
  | count + 1, offset, st =>
    let message := readUInt64LE input offset
    let st := sipRoundInlined ⟨st.v0, st.v1, st.v2, st.v3 ^^^ message⟩
    let st := sipRoundInlined st
    let st : SipState := ⟨st.v0 ^^^ message, st.v1, st.v2, st.v3⟩
    processBlocks input count (offset + 8) st

/-- The remainder loop of `computeSipHash`:
`for (i = 0; i < remainder; i++) lastBlock |= input[offset + i] << (i << 3)`.
`count` is the number of iterations still to run, `i` the loop counter. -/
def orRemainder (input : List Nat) (offset : Nat) : Nat → Nat → Nat → Nat
  | _, 0, lastBlock => lastBlock
  | i, count + 1, lastBlock =>
    orRemainder input offset (i + 1) count (lastBlock ||| (byteAt input (offset + i)) <<< (i <<< 3))

/-- `computeSipHash` from `src/sip-hash.ts` (the optimized variant with
unrolled rounds).  Constants from `src/constants.ts`:
`V0_INIT = 0x736f6d6570736575` etc., `FINALIZATION_XOR = 0xff`. -/
def computeSipHash (input : List Nat) (key : UUIDv47Key) : Nat :=
  let st : SipState := ⟨0x736f6d6570736575 ^^^ key.k0, 0x646f72616e646f6d ^^^ key.k1,
    0x6c7967656e657261 ^^^ key.k0, 0x7465646279746573 ^^^ key.k1⟩
  let inputLength := input.length
  let fullBlocks := inputLength >>> 3
  let remainder := inputLength &&& 7
  let blocksResult := processBlocks input fullBlocks 0 st
  let st := blocksResult.1
  let offset := blocksResult.2
  let lastBlock := orRemainder input offset 0 remainder (inputLength <<< 56)
  let st := sipRoundInlined ⟨st.v0, st.v1, st.v2, st.v3 ^^^ lastBlock⟩
  let st := sipRoundInlined st
  let st : SipState := ⟨st.v0 ^^^ lastBlock, st.v1, st.v2 ^^^ 0xff, st.v3⟩
  let st := sipRoundInlined st
  let st := sipRoundInlined st
  let st := sipRoundInlined st
  let st := sipRoundInlined st
  st.v0 ^^^ st.v1 ^^^ st.v2 ^^^ st.v3

/-- `computeSipHashFixed10Bytes` from `src/sip-hash.ts`: the specialized
SipHash path for exactly-10-byte messages. -/
def computeSipHashFixed10Bytes (input : List Nat) (key : UUIDv47Key) : Nat :=
  let st : SipState := ⟨0x736f6d6570736575 ^^^ key.k0, 0x646f72616e646f6d ^^^ key.k1,
    0x6c7967656e657261 ^^^ key.k0, 0x7465646279746573 ^^^ key.k1⟩
  let message := readUInt64LE input 0
  let st := sipRoundInlined ⟨st.v0, st.v1, st.v2, st.v3 ^^^ message⟩
  let st := sipRoundInlined st
  let st : SipState := ⟨st.v0 ^^^ message, st.v1, st.v2, st.v3⟩
  let lastBlock := ((10 : Nat) <<< 56) ||| ((byteAt input 9) <<< 8) ||| (byteAt input 8)
  let st := sipRoundInlined ⟨st.v0, st.v1, st.v2, st.v3 ^^^ lastBlock⟩
  let st := sipRoundInlined st
  let st : SipState := ⟨st.v0 ^^^ lastBlock, st.v1, st.v2 ^^^ 0xff, st.v3⟩
  let st := sipRoundInlined st
  let st := sipRoundInlined st
  let st := sipRoundInlined st
  let st := sipRoundInlined st
  st.v0 ^^^ st.v1 ^^^ st.v2 ^^^ st.v3

/-- Modelled from the spec (§4.1): standard SipHash-2-4, identical to the
code's algorithm except that the final block's top byte encodes the total
message length *mod 256*. -/
def specSipHash24 (input : List Nat) (key : UUIDv47Key) : Nat :=
  let st : SipState := ⟨0x736f6d6570736575 ^^^ key.k0, 0x646f72616e646f6d ^^^ key.k1,
    0x6c7967656e657261 ^^^ key.k0, 0x7465646279746573 ^^^ key.k1⟩
  let inputLength := input.length
  let fullBlocks := inputLength >>> 3
  let remainder := inputLength &&& 7
  let blocksResult := processBlocks input fullBlocks 0 st
  let st := blocksResult.1
  let offset := blocksResult.2
  let lastBlock := orRemainder input offset 0 remainder ((inputLength % 256) <<< 56)
  let st := sipRoundInlined ⟨st.v0, st.v1, st.v2, st.v3 ^^^ lastBlock⟩
  let st := sipRoundInlined st
  let st : SipState := ⟨st.v0 ^^^ lastBlock, st.v1, st.v2 ^^^ 0xff, st.v3⟩
  let st := sipRoundInlined st
  let st := sipRoundInlined st
  let st := sipRoundInlined st
  let st := sipRoundInlined st
  st.v0 ^^^ st.v1 ^^^ st.v2 ^^^ st.v3

def refKey : UUIDv47Key := ⟨0x0706050403020100, 0x0f0e0d0c0b0a0908⟩

/-- `getUUIDVersion` from `src/uuid.ts`: `(uuid[6] >> VERSION_SHIFT) & VERSION_MASK`
with `VERSION_SHIFT = 4`, `VERSION_MASK = 0x0f`. -/
def getUUIDVersion (uuid : List Nat) : Nat :=
  (byteAt uuid 6 >>> 4) &&& 0x0f

/-- `setUUIDVersion` from `src/uuid.ts`:
`uuid[6] = (uuid[6] & ~(VERSION_MASK << VERSION_SHIFT)) | (version << VERSION_SHIFT)`.
JS `~` acts on 32-bit integers, so `~0xf0` has bit pattern `0xffffff0f`;
on a byte value the `&` therefore keeps exactly the low nibble. -/
def setUUIDVersion (uuid : List Nat) (version : Nat) : List Nat :=
  uuid.set 6 ((byteAt uuid 6 &&& 0xffffff0f) ||| (version <<< 4))

/-- `setVariantRFC4122` from `src/uuid.ts`:
`uuid[8] = (uuid[8] & VARIANT_MASK_CLEAR) | VARIANT_RFC4122`
with `VARIANT_MASK_CLEAR = 0x3f`, `VARIANT_RFC4122 = 0x80`. -/
def setVariantRFC4122 (uuid : List Nat) : List Nat :=
  uuid.set 8 ((byteAt uuid 8 &&& 0x3f) ||| 0x80)

/-- `buildSipHashInput` from `src/uuid.ts`: the 10-byte SipHash message
`[uuid[6] & 0x0f, uuid[7], uuid[8] & 0x3f, uuid[9], ..., uuid[15]]`
(the trailing seven bytes come from `uuid.copy(message, 3, 9, 16)`). -/
def buildSipHashInput (uuid : List Nat) : List Nat :=
  [byteAt uuid 6 &&& 0x0f, byteAt uuid 7, byteAt uuid 8 &&& 0x3f,
   byteAt uuid 9, byteAt uuid 10, byteAt uuid 11, byteAt uuid 12,
   byteAt uuid 13, byteAt uuid 14, byteAt uuid 15]

/-- `write48BitsBE` from `src/byte-operations.ts`: writes the 48-bit `value`
as six big-endian bytes at `offset`. -/
def write48BitsBE (buffer : List Nat) (value : Nat) (offset : Nat) : List Nat :=
  (((((buffer.set offset ((value >>> 40) &&& 0xff)).set (offset + 1)
      ((value >>> 32) &&& 0xff)).set (offset + 2) ((value >>> 24) &&& 0xff)).set
      (offset + 3) ((value >>> 16) &&& 0xff)).set (offset + 4)
      ((value >>> 8) &&& 0xff)).set (offset + 5) (value &&& 0xff)

/-- `read48BitsBE` from `src/byte-operations.ts`: reads six bytes at `offset`
as a big-endian 48-bit value. -/
def read48BitsBE (buffer : List Nat) (offset : Nat) : Nat :=
  ((byteAt buffer offset) <<< 40) |||
  ((byteAt buffer (offset + 1)) <<< 32) |||
  ((byteAt buffer (offset + 2)) <<< 24) |||
  ((byteAt buffer (offset + 3)) <<< 16) |||
  ((byteAt buffer (offset + 4)) <<< 8) |||
  (byteAt buffer (offset + 5))

/-- The body of `encodeV4Facade` (`src/core.ts` lines after the version
check), factored out so the happy path can be reused in proofs.
`MASK_48_BITS = 0x0000ffffffffffff`; `Buffer.from(uuidV7)` copies the input,
so the writes below act on that copy. -/
def encodeBody (uuidV7 : List Nat) (key : UUIDv47Key) : List Nat :=
  let sipInput := buildSipHashInput uuidV7
  let hashResult := computeSipHashFixed10Bytes sipInput key
  let mask48 := hashResult &&& 0x0000ffffffffffff
  let timestamp48 := read48BitsBE uuidV7 0
  let encryptedTimestamp := timestamp48 ^^^ mask48
  let result := uuidV7
  let result := write48BitsBE result encryptedTimestamp 0
  let result := setUUIDVersion result 4
  let result := setVariantRFC4122 result
  result

/-- `encodeV4Facade` from `src/core.ts`: throws unless the input UUID has
version 7, otherwise returns the encoded copy.  A thrown `Error` is modelled
as `Except.error` carrying the message string. -/
def encodeV4Facade (uuidV7 : List Nat) (key : UUIDv47Key) : Except String (List Nat) :=
  if getUUIDVersion uuidV7 = 7 then
    Except.ok (encodeBody uuidV7 key)
  else
    Except.error "Input UUID must be version 7"

/-- The body of `decodeV4Facade` (`src/core.ts` lines after the version
check). -/
def decodeBody (uuidV4Facade : List Nat) (key : UUIDv47Key) : List Nat :=
  let sipInput := buildSipHashInput uuidV4Facade
  let hashResult := computeSipHashFixed10Bytes sipInput key
  let mask48 := hashResult &&& 0x0000ffffffffffff
  let encryptedTimestamp := read48BitsBE uuidV4Facade 0
  let originalTimestamp := encryptedTimestamp ^^^ mask48
  let result := uuidV4Facade
  let result := write48BitsBE result originalTimestamp 0
  let result := setUUIDVersion result 7
  let result := setVariantRFC4122 result
  result

/-- `decodeV4Facade` from `src/core.ts`: throws unless the input UUID has
version 4, otherwise returns the decoded copy. -/
def decodeV4Facade (uuidV4Facade : List Nat) (key : UUIDv47Key) : Except String (List Nat) :=
  if getUUIDVersion uuidV4Facade = 4 then
    Except.ok (decodeBody uuidV4Facade key)
  else
    Except.error "Input UUID must be version 4"

/-- A store of JS `Buffer`s, addressed by index.  Used to state mutation
properties: every `buffer[i] = v` in the source becomes an `hwrite` against
the buffer's address, so which buffers a call writes to is explicit. -/
abbrev Heap := List (List Nat)

/-- Read the buffer at address `a`. -/
def hget (h : Heap) (a : Nat) : List Nat := h.getD a []

/-- `buffer[i] = v` on the buffer at address `a`. -/
def hwrite (h : Heap) (a i v : Nat) : Heap := h.set a ((hget h a).set i v)

/-- The ten byte stores of `buildSipHashInput` (`src/uuid.ts`) against the
freshly allocated message buffer at address `ma`, each reading the input
buffer at address `ua` through the store. -/
def messageWrites (h : Heap) (ua ma : Nat) : Heap :=
  hwrite (hwrite (hwrite (hwrite (hwrite (hwrite (hwrite (hwrite (hwrite (hwrite h
    ma 0 (byteAt (hget h ua) 6 &&& 0x0f))
    ma 1 (byteAt (hget h ua) 7))
    ma 2 (byteAt (hget h ua) 8 &&& 0x3f))
    ma 3 (byteAt (hget h ua) 9))
    ma 4 (byteAt (hget h ua) 10))
    ma 5 (byteAt (hget h ua) 11))
    ma 6 (byteAt (hget h ua) 12))
    ma 7 (byteAt (hget h ua) 13))
    ma 8 (byteAt (hget h ua) 14))
    ma 9 (byteAt (hget h ua) 15)

/-- The six byte stores of `write48BitsBE(buffer, value, 0)`
(`src/byte-operations.ts`) against the buffer at address `a`. -/
def write48Heap (h : Heap) (a : Nat) (value : Nat) : Heap :=
  hwrite (hwrite (hwrite (hwrite (hwrite (hwrite h
    a 0 ((value >>> 40) &&& 0xff))
    a 1 ((value >>> 32) &&& 0xff))
    a 2 ((value >>> 24) &&& 0xff))
    a 3 ((value >>> 16) &&& 0xff))
    a 4 ((value >>> 8) &&& 0xff))
    a 5 (value &&& 0xff)

/-- The byte store of `setUUIDVersion` against the buffer at address `a`,
reading the buffer's current byte 6. -/
def setVersionHeap (h : Heap) (a version : Nat) : Heap :=
  hwrite h a 6 ((byteAt (hget h a) 6 &&& 0xffffff0f) ||| (version <<< 4))

/-- The byte store of `setVariantRFC4122` against the buffer at address
`a`, reading the buffer's current byte 8. -/
def setVariantHeap (h : Heap) (a : Nat) : Heap :=
  hwrite h a 8 ((byteAt (hget h a) 8 &&& 0x3f) ||| 0x80)

/-- `mask48` as the source computes it: SipHash of the message buffer at
address `ma`, masked to 48 bits. -/
def sipMaskFromHeap (h : Heap) (ma : Nat) (key : UUIDv47Key) : Nat :=
  computeSipHashFixed10Bytes (hget h ma) key &&& 0x0000ffffffffffff

/-- The result phase of `encodeV4Facade`/`decodeV4Facade` on the store:
`write48BitsBE(result, ts, 0); setUUIDVersion(result, version);
setVariantRFC4122(result)`, all against the result buffer at `ra`. -/
def resultPhaseHeap (h : Heap) (ra ts version : Nat) : Heap :=
  setVariantHeap (setVersionHeap (write48Heap h ra ts) ra version) ra

/-- `encodeV4Facade` after the message buffer has been filled: computes the
mask from the message buffer at `ma`, reads the 48-bit timestamp from the
input buffer at `ua`, allocates the result as a copy of the input
(`Buffer.from`), and performs the result stores.  Returns the store and the
result's address. -/
def encodeAfterMessage (h : Heap) (ua ma : Nat) (key : UUIDv47Key) :
    Heap × Except String Nat :=
  (resultPhaseHeap (h ++ [hget h ua]) h.length
    (read48BitsBE (hget h ua) 0 ^^^ sipMaskFromHeap h ma key) 4,
   Except.ok h.length)

/-- `encodeV4Facade` replayed against the buffer store: the input UUID
lives at address `ua`; `Buffer.allocUnsafe(10)` (inside
`buildSipHashInput`) and `Buffer.from(uuidV7)` allocate fresh buffers at
the end of the store; every byte store of the source is an `hwrite` to the
buffer it targets.  Returns the final store and the address of the result
buffer. -/
def encodeV4FacadeHeap (h : Heap) (ua : Nat) (key : UUIDv47Key) :
    Heap × Except String Nat :=
  if getUUIDVersion (hget h ua) = 7 then
    encodeAfterMessage (messageWrites (h ++ [List.replicate 10 0]) ua h.length)
      ua h.length key
  else
    (h, Except.error "Input UUID must be version 7")

/-- `decodeV4Facade` after the message buffer has been filled, exactly as
`encodeAfterMessage` but restoring version 7. -/
def decodeAfterMessage (h : Heap) (ua ma : Nat) (key : UUIDv47Key) :
    Heap × Except String Nat :=
  (resultPhaseHeap (h ++ [hget h ua]) h.length
    (read48BitsBE (hget h ua) 0 ^^^ sipMaskFromHeap h ma key) 7,
   Except.ok h.length)

/-- `decodeV4Facade` replayed against the buffer store, exactly as
`encodeV4FacadeHeap`. -/
def decodeV4FacadeHeap (h : Heap) (ua : Nat) (key : UUIDv47Key) :
    Heap × Except String Nat :=
  if getUUIDVersion (hget h ua) = 4 then
    decodeAfterMessage (messageWrites (h ++ [List.replicate 10 0]) ua h.length)
      ua h.length key
  else
    (h, Except.error "Input UUID must be version 4")

/-- The big-endian 48-bit composition used by `read48BitsBE`, as a function
of the six bytes. -/
def beConcat48 (c0 c1 c2 c3 c4 c5 : Nat) : Nat :=
  ((((c0 <<< 40 ||| c1 <<< 32) ||| c2 <<< 24) ||| c3 <<< 16) ||| c4 <<< 8) ||| c5

theorem lor_eq_add {n b : Nat} (hb : b < 2 ^ n) (a : Nat) :
    a * 2 ^ n ||| b = a * 2 ^ n + b := by
  rw [Nat.mul_comm a]
  exact (Nat.mul_add_lt_is_or hb a).symm

theorem and255_eq_mod (x : Nat) : x &&& 255 = x % 256 := by
  have h := Nat.and_pow_two_sub_one_eq_mod x 8
  norm_num at h
  exact h

theorem andMask48_eq_mod (x : Nat) : x &&& 0x0000ffffffffffff = x % 2 ^ 48 := by
  have h := Nat.and_pow_two_sub_one_eq_mod x 48
  norm_num at h ⊢
  exact h

theorem andMask48_lt (x : Nat) : x &&& 0x0000ffffffffffff < 2 ^ 48 := by
  rw [andMask48_eq_mod]
  exact Nat.mod_lt _ (by norm_num)

theorem beConcat48_eq_sum {c0 c1 c2 c3 c4 c5 : Nat} (_h0 : c0 < 256)
    (h1 : c1 < 256) (h2 : c2 < 256) (h3 : c3 < 256) (h4 : c4 < 256)
    (h5 : c5 < 256) :
    beConcat48 c0 c1 c2 c3 c4 c5 =
      c0 * 2 ^ 40 + c1 * 2 ^ 32 + c2 * 2 ^ 24 + c3 * 2 ^ 16 + c4 * 2 ^ 8 + c5 := by
  unfold beConcat48
  simp only [Nat.shiftLeft_eq]
  rw [lor_eq_add (show c1 * 2 ^ 32 < 2 ^ 40 by omega) c0,
      show c0 * 2 ^ 40 + c1 * 2 ^ 32 = (c0 * 2 ^ 8 + c1) * 2 ^ 32 by ring,
      lor_eq_add (show c2 * 2 ^ 24 < 2 ^ 32 by omega),
      show (c0 * 2 ^ 8 + c1) * 2 ^ 32 + c2 * 2 ^ 24 =
        ((c0 * 2 ^ 8 + c1) * 2 ^ 8 + c2) * 2 ^ 24 by ring,
      lor_eq_add (show c3 * 2 ^ 16 < 2 ^ 24 by omega),
      show ((c0 * 2 ^ 8 + c1) * 2 ^ 8 + c2) * 2 ^ 24 + c3 * 2 ^ 16 =
        (((c0 * 2 ^ 8 + c1) * 2 ^ 8 + c2) * 2 ^ 8 + c3) * 2 ^ 16 by ring,
      lor_eq_add (show c4 * 2 ^ 8 < 2 ^ 16 by omega),
      show (((c0 * 2 ^ 8 + c1) * 2 ^ 8 + c2) * 2 ^ 8 + c3) * 2 ^ 16 + c4 * 2 ^ 8 =
        ((((c0 * 2 ^ 8 + c1) * 2 ^ 8 + c2) * 2 ^ 8 + c3) * 2 ^ 8 + c4) * 2 ^ 8 by ring,
      lor_eq_add h5]

theorem beConcat48_lt {c0 c1 c2 c3 c4 c5 : Nat} (h0 : c0 < 256)
    (h1 : c1 < 256) (h2 : c2 < 256) (h3 : c3 < 256) (h4 : c4 < 256)
    (h5 : c5 < 256) : beConcat48 c0 c1 c2 c3 c4 c5 < 2 ^ 48 := by
  rw [beConcat48_eq_sum h0 h1 h2 h3 h4 h5]
  omega

/-- Decomposing a 48-bit value into six big-endian bytes and reassembling
them gives the value back. -/
theorem beConcat48_extract {x : Nat} (hx : x < 2 ^ 48) :
    beConcat48 ((x >>> 40) &&& 255) ((x >>> 32) &&& 255) ((x >>> 24) &&& 255)
      ((x >>> 16) &&& 255) ((x >>> 8) &&& 255) (x &&& 255) = x := by
  simp only [Nat.shiftRight_eq_div_pow, and255_eq_mod]
  rw [beConcat48_eq_sum] <;> omega

theorem beConcat48_byte0 {c0 c1 c2 c3 c4 c5 : Nat} (h0 : c0 < 256)
    (h1 : c1 < 256) (h2 : c2 < 256) (h3 : c3 < 256) (h4 : c4 < 256)
    (h5 : c5 < 256) : (beConcat48 c0 c1 c2 c3 c4 c5 >>> 40) &&& 255 = c0 := by
  rw [beConcat48_eq_sum h0 h1 h2 h3 h4 h5, Nat.shiftRight_eq_div_pow, and255_eq_mod]
  omega

theorem beConcat48_byte1 {c0 c1 c2 c3 c4 c5 : Nat} (h0 : c0 < 256)
    (h1 : c1 < 256) (h2 : c2 < 256) (h3 : c3 < 256) (h4 : c4 < 256)
    (h5 : c5 < 256) : (beConcat48 c0 c1 c2 c3 c4 c5 >>> 32) &&& 255 = c1 := by
  rw [beConcat48_eq_sum h0 h1 h2 h3 h4 h5, Nat.shiftRight_eq_div_pow, and255_eq_mod]
  omega

theorem beConcat48_byte2 {c0 c1 c2 c3 c4 c5 : Nat} (h0 : c0 < 256)
    (h1 : c1 < 256) (h2 : c2 < 256) (h3 : c3 < 256) (h4 : c4 < 256)
    (h5 : c5 < 256) : (beConcat48 c0 c1 c2 c3 c4 c5 >>> 24) &&& 255 = c2 := by
  rw [beConcat48_eq_sum h0 h1 h2 h3 h4 h5, Nat.shiftRight_eq_div_pow, and255_eq_mod]
  omega

theorem beConcat48_byte3 {c0 c1 c2 c3 c4 c5 : Nat} (h0 : c0 < 256)
    (h1 : c1 < 256) (h2 : c2 < 256) (h3 : c3 < 256) (h4 : c4 < 256)
    (h5 : c5 < 256) : (beConcat48 c0 c1 c2 c3 c4 c5 >>> 16) &&& 255 = c3 := by
  rw [beConcat48_eq_sum h0 h1 h2 h3 h4 h5, Nat.shiftRight_eq_div_pow, and255_eq_mod]
  omega

theorem beConcat48_byte4 {c0 c1 c2 c3 c4 c5 : Nat} (h0 : c0 < 256)
    (h1 : c1 < 256) (h2 : c2 < 256) (h3 : c3 < 256) (h4 : c4 < 256)
    (h5 : c5 < 256) : (beConcat48 c0 c1 c2 c3 c4 c5 >>> 8) &&& 255 = c4 := by
  rw [beConcat48_eq_sum h0 h1 h2 h3 h4 h5, Nat.shiftRight_eq_div_pow, and255_eq_mod]
  omega

theorem beConcat48_byte5 {c0 c1 c2 c3 c4 c5 : Nat} (h0 : c0 < 256)
    (h1 : c1 < 256) (h2 : c2 < 256) (h3 : c3 < 256) (h4 : c4 < 256)
    (h5 : c5 < 256) : beConcat48 c0 c1 c2 c3 c4 c5 &&& 255 = c5 := by
  rw [beConcat48_eq_sum h0 h1 h2 h3 h4 h5, and255_eq_mod]
  omega

/-- `setUUIDVersion _ 4` on a byte with any contents yields a byte whose
high nibble is 4 (so `getUUIDVersion` reads 4 and the plain high nibble is
4). -/
theorem byte_set_version4 :
    ∀ b < 256, ((b &&& 0xffffff0f) ||| (4 <<< 4)) >>> 4 = 4 ∧
      ((((b &&& 0xffffff0f) ||| (4 <<< 4)) >>> 4) &&& 0x0f) = 4 := by decide

/-- `setUUIDVersion _ 7` on a byte yields high nibble 7. -/
theorem byte_set_version7 :
    ∀ b < 256, ((b &&& 0xffffff0f) ||| (7 <<< 4)) >>> 4 = 7 ∧
      ((((b &&& 0xffffff0f) ||| (7 <<< 4)) >>> 4) &&& 0x0f) = 7 := by decide

/-- `setUUIDVersion` preserves the low nibble of byte 6. -/
theorem byte_set_version4_low :
    ∀ b < 256, ((b &&& 0xffffff0f) ||| (4 <<< 4)) &&& 0x0f = b &&& 0x0f := by decide

theorem byte_set_version7_low :
    ∀ b < 256, ((b &&& 0xffffff0f) ||| (7 <<< 4)) &&& 0x0f = b &&& 0x0f := by decide

/-- `setVariantRFC4122` preserves the low six bits of byte 8 and forces the
top two bits to binary 10. -/
theorem byte_set_variant :
    ∀ b < 256, ((b &&& 0x3f) ||| 0x80) &&& 0x3f = b &&& 0x3f ∧
      ((b &&& 0x3f) ||| 0x80) >>> 6 = 2 ∧ ((b &&& 0x3f) ||| 0x80) < 256 := by decide

/-- Setting version 7 and then version 4 restores a byte whose high nibble
was 4; symmetrically for 7. -/
theorem byte_version_roundtrip47 :
    ∀ b < 256, b >>> 4 = 7 →
      ((((b &&& 0xffffff0f) ||| (4 <<< 4)) &&& 0xffffff0f) ||| (7 <<< 4)) = b := by decide

theorem byte_version_roundtrip74 :
    ∀ b < 256, b >>> 4 = 4 →
      ((((b &&& 0xffffff0f) ||| (7 <<< 4)) &&& 0xffffff0f) ||| (4 <<< 4)) = b := by decide

/-- `setVariantRFC4122` is the identity on a byte whose top two bits are
already binary 10. -/
theorem byte_variant_fixed :
    ∀ b < 256, b >>> 6 = 2 → (b &&& 0x3f) ||| 0x80 = b := by decide

/-- A byte value whose high nibble is `v` makes `getUUIDVersion` read `v`:
on bytes, `(b >>> 4) &&& 0x0f = b >>> 4`. -/
theorem byte_high_nibble : ∀ b < 256, (b >>> 4) &&& 0x0f = b >>> 4 := by decide

/-- `setUUIDVersion _ 4` keeps the byte a byte. -/
theorem byte_set_version4_lt :
    ∀ b < 256, ((b &&& 0xffffff0f) ||| (4 <<< 4)) < 256 := by decide

theorem byte_set_version7_lt :
    ∀ b < 256, ((b &&& 0xffffff0f) ||| (7 <<< 4)) < 256 := by decide

/-- A 16-byte buffer is a sixteen-element list. -/
theorem exists_sixteen (l : List Nat) (h : l.length = 16) :
    ∃ b0 b1 b2 b3 b4 b5 b6 b7 b8 b9 b10 b11 b12 b13 b14 b15,
      l = [b0, b1, b2, b3, b4, b5, b6, b7, b8, b9, b10, b11, b12, b13, b14, b15] := by
  obtain _ | ⟨y0, _ | ⟨y1, _ | ⟨y2, _ | ⟨y3, _ | ⟨y4, _ | ⟨y5, _ | ⟨y6, _ | ⟨y7, l⟩⟩⟩⟩⟩⟩⟩⟩ := l <;>
    first
      | (obtain _ | ⟨y8, _ | ⟨y9, _ | ⟨y10, _ | ⟨y11, _ | ⟨y12, _ | ⟨y13, _ | ⟨y14, _ | ⟨y15, _ | ⟨y16, l⟩⟩⟩⟩⟩⟩⟩⟩⟩ := l <;>
          first
            | exact ⟨y0, y1, y2, y3, y4, y5, y6, y7, y8, y9, y10, y11, y12, y13, y14, y15, rfl⟩
            | exact absurd h (by simp))
      | exact absurd h (by simp)

/-- `encodeBody` on an explicit 16-byte buffer, fully evaluated: bytes 0-5
hold the big-endian encrypted timestamp, byte 6 got version 4, byte 8 got
the RFC4122 variant, everything else is untouched.  Pure unfolding. -/
theorem encodeBody_eq (b0 b1 b2 b3 b4 b5 b6 b7 b8 b9 b10 b11 b12 b13 b14 b15 : Nat)
    (k : UUIDv47Key) :
    encodeBody [b0, b1, b2, b3, b4, b5, b6, b7, b8, b9, b10, b11, b12, b13, b14, b15] k =
      [((beConcat48 b0 b1 b2 b3 b4 b5 ^^^
          (computeSipHashFixed10Bytes [b6 &&& 0x0f, b7, b8 &&& 0x3f, b9, b10, b11, b12, b13, b14, b15] k &&&
            0x0000ffffffffffff)) >>> 40) &&& 0xff,
       ((beConcat48 b0 b1 b2 b3 b4 b5 ^^^
          (computeSipHashFixed10Bytes [b6 &&& 0x0f, b7, b8 &&& 0x3f, b9, b10, b11, b12, b13, b14, b15] k &&&
            0x0000ffffffffffff)) >>> 32) &&& 0xff,
       ((beConcat48 b0 b1 b2 b3 b4 b5 ^^^
          (computeSipHashFixed10Bytes [b6 &&& 0x0f, b7, b8 &&& 0x3f, b9, b10, b11, b12, b13, b14, b15] k &&&
            0x0000ffffffffffff)) >>> 24) &&& 0xff,
       ((beConcat48 b0 b1 b2 b3 b4 b5 ^^^
          (computeSipHashFixed10Bytes [b6 &&& 0x0f, b7, b8 &&& 0x3f, b9, b10, b11, b12, b13, b14, b15] k &&&
            0x0000ffffffffffff)) >>> 16) &&& 0xff,
       ((beConcat48 b0 b1 b2 b3 b4 b5 ^^^
          (computeSipHashFixed10Bytes [b6 &&& 0x0f, b7, b8 &&& 0x3f, b9, b10, b11, b12, b13, b14, b15] k &&&
            0x0000ffffffffffff)) >>> 8) &&& 0xff,
       (beConcat48 b0 b1 b2 b3 b4 b5 ^^^
          (computeSipHashFixed10Bytes [b6 &&& 0x0f, b7, b8 &&& 0x3f, b9, b10, b11, b12, b13, b14, b15] k &&&
            0x0000ffffffffffff)) &&& 0xff,
       (b6 &&& 0xffffff0f) ||| (4 <<< 4), b7, (b8 &&& 0x3f) ||| 0x80,
       b9, b10, b11, b12, b13, b14, b15] := rfl

/-- `decodeBody` on an explicit 16-byte buffer, fully evaluated. -/
theorem decodeBody_eq (b0 b1 b2 b3 b4 b5 b6 b7 b8 b9 b10 b11 b12 b13 b14 b15 : Nat)
    (k : UUIDv47Key) :
    decodeBody [b0, b1, b2, b3, b4, b5, b6, b7, b8, b9, b10, b11, b12, b13, b14, b15] k =
      [((beConcat48 b0 b1 b2 b3 b4 b5 ^^^
          (computeSipHashFixed10Bytes [b6 &&& 0x0f, b7, b8 &&& 0x3f, b9, b10, b11, b12, b13, b14, b15] k &&&
            0x0000ffffffffffff)) >>> 40) &&& 0xff,
       ((beConcat48 b0 b1 b2 b3 b4 b5 ^^^
          (computeSipHashFixed10Bytes [b6 &&& 0x0f, b7, b8 &&& 0x3f, b9, b10, b11, b12, b13, b14, b15] k &&&
            0x0000ffffffffffff)) >>> 32) &&& 0xff,
       ((beConcat48 b0 b1 b2 b3 b4 b5 ^^^
          (computeSipHashFixed10Bytes [b6 &&& 0x0f, b7, b8 &&& 0x3f, b9, b10, b11, b12, b13, b14, b15] k &&&
            0x0000ffffffffffff)) >>> 24) &&& 0xff,
       ((beConcat48 b0 b1 b2 b3 b4 b5 ^^^
          (computeSipHashFixed10Bytes [b6 &&& 0x0f, b7, b8 &&& 0x3f, b9, b10, b11, b12, b13, b14, b15] k &&&
            0x0000ffffffffffff)) >>> 16) &&& 0xff,
       ((beConcat48 b0 b1 b2 b3 b4 b5 ^^^
          (computeSipHashFixed10Bytes [b6 &&& 0x0f, b7, b8 &&& 0x3f, b9, b10, b11, b12, b13, b14, b15] k &&&
            0x0000ffffffffffff)) >>> 8) &&& 0xff,
       (beConcat48 b0 b1 b2 b3 b4 b5 ^^^
          (computeSipHashFixed10Bytes [b6 &&& 0x0f, b7, b8 &&& 0x3f, b9, b10, b11, b12, b13, b14, b15] k &&&
            0x0000ffffffffffff)) &&& 0xff,
       (b6 &&& 0xffffff0f) ||| (7 <<< 4), b7, (b8 &&& 0x3f) ||| 0x80,
       b9, b10, b11, b12, b13, b14, b15] := rfl

theorem encodeV4Facade_ok {u : List Nat} {k : UUIDv47Key}
    (h : getUUIDVersion u = 7) :
    encodeV4Facade u k = Except.ok (encodeBody u k) := by
  unfold encodeV4Facade
  rw [if_pos h]

theorem encodeV4Facade_err {u : List Nat} {k : UUIDv47Key}
    (h : getUUIDVersion u ≠ 7) :
    encodeV4Facade u k = Except.error "Input UUID must be version 7" := by
  unfold encodeV4Facade
  rw [if_neg h]

theorem decodeV4Facade_ok {u : List Nat} {k : UUIDv47Key}
    (h : getUUIDVersion u = 4) :
    decodeV4Facade u k = Except.ok (decodeBody u k) := by
  unfold decodeV4Facade
  rw [if_pos h]

theorem decodeV4Facade_err {u : List Nat} {k : UUIDv47Key}
    (h : getUUIDVersion u ≠ 4) :
    decodeV4Facade u k = Except.error "Input UUID must be version 4" := by
  unfold decodeV4Facade
  rw [if_neg h]

/-- Core of the round trip, on an explicit byte-destructed buffer: encoding
succeeds, and decoding the encoded buffer with the same key restores the
original byte-for-byte. -/
theorem encode_decode_core (b0 b1 b2 b3 b4 b5 b6 b7 b8 b9 b10 b11 b12 b13 b14 b15 : Nat)
    (k : UUIDv47Key)
    (hb0 : b0 < 256) (hb1 : b1 < 256) (hb2 : b2 < 256) (hb3 : b3 < 256)
    (hb4 : b4 < 256) (hb5 : b5 < 256) (hb6 : b6 < 256) (hb8 : b8 < 256)
    (hv : b6 >>> 4 = 7) (hvar : b8 >>> 6 = 2) :
    encodeV4Facade [b0, b1, b2, b3, b4, b5, b6, b7, b8, b9, b10, b11, b12, b13, b14, b15] k =
      Except.ok (encodeBody [b0, b1, b2, b3, b4, b5, b6, b7, b8, b9, b10, b11, b12, b13, b14, b15] k) ∧
    decodeV4Facade (encodeBody [b0, b1, b2, b3, b4, b5, b6, b7, b8, b9, b10, b11, b12, b13, b14, b15] k) k =
      Except.ok [b0, b1, b2, b3, b4, b5, b6, b7, b8, b9, b10, b11, b12, b13, b14, b15] := by
  have hver : getUUIDVersion [b0, b1, b2, b3, b4, b5, b6, b7, b8, b9, b10, b11, b12, b13, b14, b15] = 7 := by
    show (b6 >>> 4) &&& 0x0f = 7
    rw [hv]
    decide
  refine ⟨encodeV4Facade_ok hver, ?_⟩
  have h4 : getUUIDVersion (encodeBody [b0, b1, b2, b3, b4, b5, b6, b7, b8, b9, b10, b11, b12, b13, b14, b15] k) = 4 := by
    rw [encodeBody_eq]
    exact (byte_set_version4 b6 hb6).2
  rw [decodeV4Facade_ok h4, encodeBody_eq, decodeBody_eq]
  rw [byte_set_version4_low b6 hb6, (byte_set_variant b8 hb8).1]
  have hT : beConcat48 b0 b1 b2 b3 b4 b5 < 2 ^ 48 :=
    beConcat48_lt hb0 hb1 hb2 hb3 hb4 hb5
  have hm := andMask48_lt
    (computeSipHashFixed10Bytes [b6 &&& 0x0f, b7, b8 &&& 0x3f, b9, b10, b11, b12, b13, b14, b15] k)
  have hX := Nat.xor_lt_two_pow hT hm
  rw [beConcat48_extract hX]
  simp only [Nat.xor_cancel_right]
  rw [beConcat48_byte0 hb0 hb1 hb2 hb3 hb4 hb5,
      beConcat48_byte1 hb0 hb1 hb2 hb3 hb4 hb5,
      beConcat48_byte2 hb0 hb1 hb2 hb3 hb4 hb5,
      beConcat48_byte3 hb0 hb1 hb2 hb3 hb4 hb5,
      beConcat48_byte4 hb0 hb1 hb2 hb3 hb4 hb5,
      beConcat48_byte5 hb0 hb1 hb2 hb3 hb4 hb5,
      byte_version_roundtrip47 b6 hb6 hv,
      byte_variant_fixed b8 hb8 hvar]

/-- Core of the reverse round trip: decoding a valid v4 facade succeeds and
re-encoding the result with the same key restores the facade
byte-for-byte. -/
theorem decode_encode_core (b0 b1 b2 b3 b4 b5 b6 b7 b8 b9 b10 b11 b12 b13 b14 b15 : Nat)
    (k : UUIDv47Key)
    (hb0 : b0 < 256) (hb1 : b1 < 256) (hb2 : b2 < 256) (hb3 : b3 < 256)
    (hb4 : b4 < 256) (hb5 : b5 < 256) (hb6 : b6 < 256) (hb8 : b8 < 256)
    (hv : b6 >>> 4 = 4) (hvar : b8 >>> 6 = 2) :
    decodeV4Facade [b0, b1, b2, b3, b4, b5, b6, b7, b8, b9, b10, b11, b12, b13, b14, b15] k =
      Except.ok (decodeBody [b0, b1, b2, b3, b4, b5, b6, b7, b8, b9, b10, b11, b12, b13, b14, b15] k) ∧
    encodeV4Facade (decodeBody [b0, b1, b2, b3, b4, b5, b6, b7, b8, b9, b10, b11, b12, b13, b14, b15] k) k =
      Except.ok [b0, b1, b2, b3, b4, b5, b6, b7, b8, b9, b10, b11, b12, b13, b14, b15] := by
  have hver : getUUIDVersion [b0, b1, b2, b3, b4, b5, b6, b7, b8, b9, b10, b11, b12, b13, b14, b15] = 4 := by
    show (b6 >>> 4) &&& 0x0f = 4
    rw [hv]
    decide
  refine ⟨decodeV4Facade_ok hver, ?_⟩
  have h7 : getUUIDVersion (decodeBody [b0, b1, b2, b3, b4, b5, b6, b7, b8, b9, b10, b11, b12, b13, b14, b15] k) = 7 := by
    rw [decodeBody_eq]
    exact (byte_set_version7 b6 hb6).2
  rw [encodeV4Facade_ok h7, decodeBody_eq, encodeBody_eq]
  rw [byte_set_version7_low b6 hb6, (byte_set_variant b8 hb8).1]
  have hT : beConcat48 b0 b1 b2 b3 b4 b5 < 2 ^ 48 :=
    beConcat48_lt hb0 hb1 hb2 hb3 hb4 hb5
  have hm := andMask48_lt
    (computeSipHashFixed10Bytes [b6 &&& 0x0f, b7, b8 &&& 0x3f, b9, b10, b11, b12, b13, b14, b15] k)
  have hX := Nat.xor_lt_two_pow hT hm
  rw [beConcat48_extract hX]
  simp only [Nat.xor_cancel_right]
  rw [beConcat48_byte0 hb0 hb1 hb2 hb3 hb4 hb5,
      beConcat48_byte1 hb0 hb1 hb2 hb3 hb4 hb5,
      beConcat48_byte2 hb0 hb1 hb2 hb3 hb4 hb5,
      beConcat48_byte3 hb0 hb1 hb2 hb3 hb4 hb5,
      beConcat48_byte4 hb0 hb1 hb2 hb3 hb4 hb5,
      beConcat48_byte5 hb0 hb1 hb2 hb3 hb4 hb5,
      byte_version_roundtrip74 b6 hb6 hv,
      byte_variant_fixed b8 hb8 hvar]

/-- C1: for every 16-byte identifier whose version nibble (high nibble of
byte 6) is 7 and whose variant bits (top two bits of byte 8) are binary 10,
and for every key, `decodeV4Facade (encodeV4Facade u k) k` succeeds and
returns the identifier `u` byte-for-byte. -/
theorem encode_then_decode_roundtrip (u : List Nat) (k : UUIDv47Key)
    (h16 : u.length = 16) (hbytes : ∀ b ∈ u, b < 256)
    (hver : byteAt u 6 >>> 4 = 7) (hvar : byteAt u 8 >>> 6 = 2) :
    ∃ w, encodeV4Facade u k = Except.ok w ∧ decodeV4Facade w k = Except.ok u := by
  obtain ⟨b0, b1, b2, b3, b4, b5, b6, b7, b8, b9, b10, b11, b12, b13, b14, b15, rfl⟩ :=
    exists_sixteen u h16
  simp only [List.mem_cons, List.not_mem_nil, or_false, forall_eq_or_imp, forall_eq] at hbytes
  obtain ⟨hb0, hb1, hb2, hb3, hb4, hb5, hb6, hb7, hb8, hb9, hb10, hb11, hb12, hb13, hb14, hb15⟩ :=
    hbytes
  have hv : b6 >>> 4 = 7 := hver
  have hq : b8 >>> 6 = 2 := hvar
  obtain ⟨he, hd⟩ := encode_decode_core b0 b1 b2 b3 b4 b5 b6 b7 b8 b9 b10 b11 b12 b13 b14 b15 k
    hb0 hb1 hb2 hb3 hb4 hb5 hb6 hb8 hv hq
  exact ⟨_, he, hd⟩

/-- Witness for C1: the spec's concrete scenario, identifier
`018f4e7c-3c4a-7000-8000-123456789abc` with key
`k0 = 0x0123456789abcdef`, `k1 = 0xfedcba9876543210`. -/
theorem encode_then_decode_roundtrip_witness :
    ∃ w, encodeV4Facade
        [0x01, 0x8f, 0x4e, 0x7c, 0x3c, 0x4a, 0x70, 0x00, 0x80, 0x00, 0x12, 0x34, 0x56, 0x78, 0x9a, 0xbc]
        ⟨0x0123456789abcdef, 0xfedcba9876543210⟩ = Except.ok w ∧
      decodeV4Facade w ⟨0x0123456789abcdef, 0xfedcba9876543210⟩ = Except.ok
        [0x01, 0x8f, 0x4e, 0x7c, 0x3c, 0x4a, 0x70, 0x00, 0x80, 0x00, 0x12, 0x34, 0x56, 0x78, 0x9a, 0xbc] :=
  encode_then_decode_roundtrip _ _ (by decide) (by decide) (by decide) (by decide)

/-- C10: for every 16-byte identifier whose version nibble is 4 and whose
variant bits are binary 10, and for every key,
`encodeV4Facade (decodeV4Facade v k) k` succeeds and returns `v`
byte-for-byte: the facade transform is a bijection between valid v7
identifiers and valid v4 facades under a fixed key. -/
theorem decode_then_encode_roundtrip (v : List Nat) (k : UUIDv47Key)
    (h16 : v.length = 16) (hbytes : ∀ b ∈ v, b < 256)
    (hver : byteAt v 6 >>> 4 = 4) (hvar : byteAt v 8 >>> 6 = 2) :
    ∃ w, decodeV4Facade v k = Except.ok w ∧ encodeV4Facade w k = Except.ok v := by
  obtain ⟨b0, b1, b2, b3, b4, b5, b6, b7, b8, b9, b10, b11, b12, b13, b14, b15, rfl⟩ :=
    exists_sixteen v h16
  simp only [List.mem_cons, List.not_mem_nil, or_false, forall_eq_or_imp, forall_eq] at hbytes
  obtain ⟨hb0, hb1, hb2, hb3, hb4, hb5, hb6, hb7, hb8, hb9, hb10, hb11, hb12, hb13, hb14, hb15⟩ :=
    hbytes
  have hv : b6 >>> 4 = 4 := hver
  have hq : b8 >>> 6 = 2 := hvar
  obtain ⟨hd, he⟩ := decode_encode_core b0 b1 b2 b3 b4 b5 b6 b7 b8 b9 b10 b11 b12 b13 b14 b15 k
    hb0 hb1 hb2 hb3 hb4 hb5 hb6 hb8 hv hq
  exact ⟨_, hd, he⟩

/-- Witness for C10: a concrete valid version-4 facade. -/
theorem decode_then_encode_roundtrip_witness :
    ∃ w, decodeV4Facade
        [0x01, 0x8f, 0x4e, 0x7c, 0x3c, 0x4a, 0x40, 0x00, 0x80, 0x00, 0x12, 0x34, 0x56, 0x78, 0x9a, 0xbc]
        ⟨0x0123456789abcdef, 0xfedcba9876543210⟩ = Except.ok w ∧
      encodeV4Facade w ⟨0x0123456789abcdef, 0xfedcba9876543210⟩ = Except.ok
        [0x01, 0x8f, 0x4e, 0x7c, 0x3c, 0x4a, 0x40, 0x00, 0x80, 0x00, 0x12, 0x34, 0x56, 0x78, 0x9a, 0xbc] :=
  decode_then_encode_roundtrip _ _ (by decide) (by decide) (by decide) (by decide)

/-- C4: the output of `encodeV4Facade` on a valid version-7 identifier has
version nibble 4 and variant bits binary 10; the output of
`decodeV4Facade` on a version-4 input has version nibble 7 and variant bits
binary 10. -/
theorem output_version_and_variant :
    (∀ (u : List Nat) (k : UUIDv47Key), u.length = 16 → (∀ b ∈ u, b < 256) →
      byteAt u 6 >>> 4 = 7 →
      ∃ w, encodeV4Facade u k = Except.ok w ∧
        byteAt w 6 >>> 4 = 4 ∧ byteAt w 8 >>> 6 = 2) ∧
    (∀ (v : List Nat) (k : UUIDv47Key), v.length = 16 → (∀ b ∈ v, b < 256) →
      byteAt v 6 >>> 4 = 4 →
      ∃ w, decodeV4Facade v k = Except.ok w ∧
        byteAt w 6 >>> 4 = 7 ∧ byteAt w 8 >>> 6 = 2) := by
  constructor
  · intro u k h16 hbytes hver
    obtain ⟨b0, b1, b2, b3, b4, b5, b6, b7, b8, b9, b10, b11, b12, b13, b14, b15, rfl⟩ :=
      exists_sixteen u h16
    simp only [List.mem_cons, List.not_mem_nil, or_false, forall_eq_or_imp, forall_eq] at hbytes
    obtain ⟨-, -, -, -, -, -, hb6, -, hb8, -⟩ := hbytes
    have hv : b6 >>> 4 = 7 := hver
    have hver7 : getUUIDVersion [b0, b1, b2, b3, b4, b5, b6, b7, b8, b9, b10, b11, b12, b13, b14, b15] = 7 := by
      show (b6 >>> 4) &&& 0x0f = 7
      rw [hv]
      decide
    refine ⟨_, encodeV4Facade_ok hver7, ?_, ?_⟩
    · rw [encodeBody_eq]
      exact (byte_set_version4 b6 hb6).1
    · rw [encodeBody_eq]
      exact (byte_set_variant b8 hb8).2.1
  · intro v k h16 hbytes hver
    obtain ⟨b0, b1, b2, b3, b4, b5, b6, b7, b8, b9, b10, b11, b12, b13, b14, b15, rfl⟩ :=
      exists_sixteen v h16
    simp only [List.mem_cons, List.not_mem_nil, or_false, forall_eq_or_imp, forall_eq] at hbytes
    obtain ⟨-, -, -, -, -, -, hb6, -, hb8, -⟩ := hbytes
    have hv : b6 >>> 4 = 4 := hver
    have hver4 : getUUIDVersion [b0, b1, b2, b3, b4, b5, b6, b7, b8, b9, b10, b11, b12, b13, b14, b15] = 4 := by
      show (b6 >>> 4) &&& 0x0f = 4
      rw [hv]
      decide
    refine ⟨_, decodeV4Facade_ok hver4, ?_, ?_⟩
    · rw [decodeBody_eq]
      exact (byte_set_version7 b6 hb6).1
    · rw [decodeBody_eq]
      exact (byte_set_variant b8 hb8).2.1

/-- Witness for C4, at concrete valid inputs for both conjuncts. -/
theorem output_version_and_variant_witness :
    (∃ w, encodeV4Facade
        [0x01, 0x8f, 0x4e, 0x7c, 0x3c, 0x4a, 0x70, 0x00, 0x80, 0x00, 0x12, 0x34, 0x56, 0x78, 0x9a, 0xbc]
        ⟨5, 6⟩ = Except.ok w ∧ byteAt w 6 >>> 4 = 4 ∧ byteAt w 8 >>> 6 = 2) ∧
    (∃ w, decodeV4Facade
        [0x01, 0x8f, 0x4e, 0x7c, 0x3c, 0x4a, 0x4f, 0x00, 0x30, 0x00, 0x12, 0x34, 0x56, 0x78, 0x9a, 0xbc]
        ⟨5, 6⟩ = Except.ok w ∧ byteAt w 6 >>> 4 = 7 ∧ byteAt w 8 >>> 6 = 2) :=
  ⟨output_version_and_variant.1 _ _ (by decide) (by decide) (by decide),
   output_version_and_variant.2 _ _ (by decide) (by decide) (by decide)⟩

/-- C5: encoding preserves all 74 "random" bits — the low nibble of byte 6,
byte 7, the low six bits of byte 8, and bytes 9 through 15 — bit-for-bit;
the result also still has 16 bytes, so only bytes 0-5, the version nibble
and the top two bits of byte 8 can differ. -/
theorem encode_preserves_random_bits (u : List Nat) (k : UUIDv47Key)
    (h16 : u.length = 16) (hbytes : ∀ b ∈ u, b < 256)
    (hver : byteAt u 6 >>> 4 = 7) :
    ∃ w, encodeV4Facade u k = Except.ok w ∧ w.length = 16 ∧
      byteAt w 6 &&& 0x0f = byteAt u 6 &&& 0x0f ∧
      byteAt w 7 = byteAt u 7 ∧
      byteAt w 8 &&& 0x3f = byteAt u 8 &&& 0x3f ∧
      byteAt w 9 = byteAt u 9 ∧ byteAt w 10 = byteAt u 10 ∧
      byteAt w 11 = byteAt u 11 ∧ byteAt w 12 = byteAt u 12 ∧
      byteAt w 13 = byteAt u 13 ∧ byteAt w 14 = byteAt u 14 ∧
      byteAt w 15 = byteAt u 15 := by
  obtain ⟨b0, b1, b2, b3, b4, b5, b6, b7, b8, b9, b10, b11, b12, b13, b14, b15, rfl⟩ :=
    exists_sixteen u h16
  simp only [List.mem_cons, List.not_mem_nil, or_false, forall_eq_or_imp, forall_eq] at hbytes
  obtain ⟨-, -, -, -, -, -, hb6, -, hb8, -⟩ := hbytes
  have hv : b6 >>> 4 = 7 := hver
  have hver7 : getUUIDVersion [b0, b1, b2, b3, b4, b5, b6, b7, b8, b9, b10, b11, b12, b13, b14, b15] = 7 := by
    show (b6 >>> 4) &&& 0x0f = 7
    rw [hv]
    decide
  refine ⟨_, encodeV4Facade_ok hver7, ?_⟩
  rw [encodeBody_eq]
  refine ⟨rfl, ?_, rfl, ?_, rfl, rfl, rfl, rfl, rfl, rfl, rfl⟩
  · exact byte_set_version4_low b6 hb6
  · exact (byte_set_variant b8 hb8).1

/-- Witness for C5 at the spec's concrete scenario input. -/
theorem encode_preserves_random_bits_witness :
    ∃ w, encodeV4Facade
        [0x01, 0x8f, 0x4e, 0x7c, 0x3c, 0x4a, 0x70, 0x00, 0x80, 0x00, 0x12, 0x34, 0x56, 0x78, 0x9a, 0xbc]
        ⟨0x0123456789abcdef, 0xfedcba9876543210⟩ = Except.ok w ∧ w.length = 16 ∧
      byteAt w 6 &&& 0x0f = byteAt
        [0x01, 0x8f, 0x4e, 0x7c, 0x3c, 0x4a, 0x70, 0x00, 0x80, 0x00, 0x12, 0x34, 0x56, 0x78, 0x9a, 0xbc] 6 &&& 0x0f ∧
      byteAt w 7 = byteAt
        [0x01, 0x8f, 0x4e, 0x7c, 0x3c, 0x4a, 0x70, 0x00, 0x80, 0x00, 0x12, 0x34, 0x56, 0x78, 0x9a, 0xbc] 7 ∧
      byteAt w 8 &&& 0x3f = byteAt
        [0x01, 0x8f, 0x4e, 0x7c, 0x3c, 0x4a, 0x70, 0x00, 0x80, 0x00, 0x12, 0x34, 0x56, 0x78, 0x9a, 0xbc] 8 &&& 0x3f ∧
      byteAt w 9 = byteAt
        [0x01, 0x8f, 0x4e, 0x7c, 0x3c, 0x4a, 0x70, 0x00, 0x80, 0x00, 0x12, 0x34, 0x56, 0x78, 0x9a, 0xbc] 9 ∧
      byteAt w 10 = byteAt
        [0x01, 0x8f, 0x4e, 0x7c, 0x3c, 0x4a, 0x70, 0x00, 0x80, 0x00, 0x12, 0x34, 0x56, 0x78, 0x9a, 0xbc] 10 ∧
      byteAt w 11 = byteAt
        [0x01, 0x8f, 0x4e, 0x7c, 0x3c, 0x4a, 0x70, 0x00, 0x80, 0x00, 0x12, 0x34, 0x56, 0x78, 0x9a, 0xbc] 11 ∧
      byteAt w 12 = byteAt
        [0x01, 0x8f, 0x4e, 0x7c, 0x3c, 0x4a, 0x70, 0x00, 0x80, 0x00, 0x12, 0x34, 0x56, 0x78, 0x9a, 0xbc] 12 ∧
      byteAt w 13 = byteAt
        [0x01, 0x8f, 0x4e, 0x7c, 0x3c, 0x4a, 0x70, 0x00, 0x80, 0x00, 0x12, 0x34, 0x56, 0x78, 0x9a, 0xbc] 13 ∧
      byteAt w 14 = byteAt
        [0x01, 0x8f, 0x4e, 0x7c, 0x3c, 0x4a, 0x70, 0x00, 0x80, 0x00, 0x12, 0x34, 0x56, 0x78, 0x9a, 0xbc] 14 ∧
      byteAt w 15 = byteAt
        [0x01, 0x8f, 0x4e, 0x7c, 0x3c, 0x4a, 0x70, 0x00, 0x80, 0x00, 0x12, 0x34, 0x56, 0x78, 0x9a, 0xbc] 15 :=
  encode_preserves_random_bits _ _ (by decide) (by decide) (by decide)

/-- C6: `encodeV4Facade` raises an error exactly when the input's version
nibble (high nibble of byte 6) is not 7, and `decodeV4Facade` exactly when
it is not 4; with the right version both return an identifier. -/
theorem version_check_rejects (u : List Nat) (k : UUIDv47Key)
    (h6 : byteAt u 6 < 256) :
    ((∃ e, encodeV4Facade u k = Except.error e) ↔ byteAt u 6 >>> 4 ≠ 7) ∧
    ((∃ w, encodeV4Facade u k = Except.ok w) ↔ byteAt u 6 >>> 4 = 7) ∧
    ((∃ e, decodeV4Facade u k = Except.error e) ↔ byteAt u 6 >>> 4 ≠ 4) ∧
    ((∃ w, decodeV4Facade u k = Except.ok w) ↔ byteAt u 6 >>> 4 = 4) := by
  have hg : getUUIDVersion u = byteAt u 6 >>> 4 := byte_high_nibble _ h6
  refine ⟨⟨?_, ?_⟩, ⟨?_, ?_⟩, ⟨?_, ?_⟩, ⟨?_, ?_⟩⟩
  · rintro ⟨e, he⟩ h7
    rw [encodeV4Facade_ok (by rw [hg]; exact h7)] at he
    exact absurd he (by simp)
  · intro h7
    exact ⟨_, encodeV4Facade_err (by rw [hg]; exact h7)⟩
  · rintro ⟨w, hw⟩
    by_contra h7
    rw [encodeV4Facade_err (by rw [hg]; exact h7)] at hw
    exact absurd hw (by simp)
  · intro h7
    exact ⟨_, encodeV4Facade_ok (by rw [hg]; exact h7)⟩
  · rintro ⟨e, he⟩ h4
    rw [decodeV4Facade_ok (by rw [hg]; exact h4)] at he
    exact absurd he (by simp)
  · intro h4
    exact ⟨_, decodeV4Facade_err (by rw [hg]; exact h4)⟩
  · rintro ⟨w, hw⟩
    by_contra h4
    rw [decodeV4Facade_err (by rw [hg]; exact h4)] at hw
    exact absurd hw (by simp)
  · intro h4
    exact ⟨_, decodeV4Facade_ok (by rw [hg]; exact h4)⟩

/-- Witness for C6, at a version-7 input (so encode succeeds and decode
errors). -/
theorem version_check_rejects_witness :
    ((∃ e, encodeV4Facade
        [0, 0, 0, 0, 0, 0, 0x70, 0, 0x80, 0, 0, 0, 0, 0, 0, 0] ⟨1, 2⟩ = Except.error e) ↔
      byteAt [0, 0, 0, 0, 0, 0, 0x70, 0, 0x80, 0, 0, 0, 0, 0, 0, 0] 6 >>> 4 ≠ 7) ∧
    ((∃ w, encodeV4Facade
        [0, 0, 0, 0, 0, 0, 0x70, 0, 0x80, 0, 0, 0, 0, 0, 0, 0] ⟨1, 2⟩ = Except.ok w) ↔
      byteAt [0, 0, 0, 0, 0, 0, 0x70, 0, 0x80, 0, 0, 0, 0, 0, 0, 0] 6 >>> 4 = 7) ∧
    ((∃ e, decodeV4Facade
        [0, 0, 0, 0, 0, 0, 0x70, 0, 0x80, 0, 0, 0, 0, 0, 0, 0] ⟨1, 2⟩ = Except.error e) ↔
      byteAt [0, 0, 0, 0, 0, 0, 0x70, 0, 0x80, 0, 0, 0, 0, 0, 0, 0] 6 >>> 4 ≠ 4) ∧
    ((∃ w, decodeV4Facade
        [0, 0, 0, 0, 0, 0, 0x70, 0, 0x80, 0, 0, 0, 0, 0, 0, 0] ⟨1, 2⟩ = Except.ok w) ↔
      byteAt [0, 0, 0, 0, 0, 0, 0x70, 0, 0x80, 0, 0, 0, 0, 0, 0, 0] 6 >>> 4 = 4) :=
  version_check_rejects _ _ (by decide)

/-- Counterexample for C7: inputs with two different wrong versions (1 and
2) are rejected with the *same* error value, and the message is a fixed
string, so the raised error does not carry the actual version found. -/
theorem invalid_version_error_is_fixed :
    encodeV4Facade [0, 0, 0, 0, 0, 0, 0x10, 0, 0x80, 0, 0, 0, 0, 0, 0, 0] ⟨0, 0⟩ =
      Except.error "Input UUID must be version 7" ∧
    encodeV4Facade [0, 0, 0, 0, 0, 0, 0x20, 0, 0x80, 0, 0, 0, 0, 0, 0, 0] ⟨0, 0⟩ =
      Except.error "Input UUID must be version 7" ∧
    getUUIDVersion [0, 0, 0, 0, 0, 0, 0x10, 0, 0x80, 0, 0, 0, 0, 0, 0, 0] = 1 ∧
    getUUIDVersion [0, 0, 0, 0, 0, 0, 0x20, 0, 0x80, 0, 0, 0, 0, 0, 0, 0] = 2 ∧
    decodeV4Facade [0, 0, 0, 0, 0, 0, 0x10, 0, 0x80, 0, 0, 0, 0, 0, 0, 0] ⟨0, 0⟩ =
      Except.error "Input UUID must be version 4" ∧
    decodeV4Facade [0, 0, 0, 0, 0, 0, 0x20, 0, 0x80, 0, 0, 0, 0, 0, 0, 0] ⟨0, 0⟩ =
      Except.error "Input UUID must be version 4" := by
  exact ⟨rfl, rfl, by decide, by decide, rfl, rfl⟩

/-- C7 as amended: on a wrong-version input the transform raises an error
whose message is the fixed string "Input UUID must be version 7"
(resp. "... version 4"); the actual version found is not part of the
error. -/
theorem invalid_version_error_message (u : List Nat) (k : UUIDv47Key) :
    (getUUIDVersion u ≠ 7 →
      encodeV4Facade u k = Except.error "Input UUID must be version 7") ∧
    (getUUIDVersion u ≠ 4 →
      decodeV4Facade u k = Except.error "Input UUID must be version 4") :=
  ⟨encodeV4Facade_err, decodeV4Facade_err⟩

/-- Witness for amended C7. -/
theorem invalid_version_error_message_witness :
    encodeV4Facade [0, 0, 0, 0, 0, 0, 0x10, 0, 0x80, 0, 0, 0, 0, 0, 0, 0] ⟨0, 0⟩ =
      Except.error "Input UUID must be version 7" ∧
    decodeV4Facade [0, 0, 0, 0, 0, 0, 0x10, 0, 0x80, 0, 0, 0, 0, 0, 0, 0] ⟨0, 0⟩ =
      Except.error "Input UUID must be version 4" :=
  ⟨(invalid_version_error_message _ _).1 (by decide),
   (invalid_version_error_message _ _).2 (by decide)⟩

/-- C8: decoding an encoded identifier with *any* key (equal to the encode
key or not) never raises: it returns a structurally valid identifier with
version nibble 7 and variant bits binary 10. -/
theorem decode_wrong_key_still_valid (u : List Nat) (k1 k2 : UUIDv47Key)
    (h16 : u.length = 16) (hbytes : ∀ b ∈ u, b < 256)
    (hver : byteAt u 6 >>> 4 = 7) :
    ∃ w r, encodeV4Facade u k1 = Except.ok w ∧ decodeV4Facade w k2 = Except.ok r ∧
      byteAt r 6 >>> 4 = 7 ∧ byteAt r 8 >>> 6 = 2 := by
  obtain ⟨b0, b1, b2, b3, b4, b5, b6, b7, b8, b9, b10, b11, b12, b13, b14, b15, rfl⟩ :=
    exists_sixteen u h16
  simp only [List.mem_cons, List.not_mem_nil, or_false, forall_eq_or_imp, forall_eq] at hbytes
  obtain ⟨-, -, -, -, -, -, hb6, -, hb8, -⟩ := hbytes
  have hv : b6 >>> 4 = 7 := hver
  have hver7 : getUUIDVersion [b0, b1, b2, b3, b4, b5, b6, b7, b8, b9, b10, b11, b12, b13, b14, b15] = 7 := by
    show (b6 >>> 4) &&& 0x0f = 7
    rw [hv]
    decide
  have h4 : getUUIDVersion (encodeBody [b0, b1, b2, b3, b4, b5, b6, b7, b8, b9, b10, b11, b12, b13, b14, b15] k1) = 4 := by
    rw [encodeBody_eq]
    exact (byte_set_version4 b6 hb6).2
  refine ⟨_, _, encodeV4Facade_ok hver7, decodeV4Facade_ok h4, ?_, ?_⟩
  · rw [encodeBody_eq, decodeBody_eq]
    exact (byte_set_version7 _ (byte_set_version4_lt b6 hb6)).1
  · rw [encodeBody_eq, decodeBody_eq]
    exact (byte_set_variant _ (byte_set_variant b8 hb8).2.2).2.1

/-- Witness for C8, with two distinct concrete keys. -/
theorem decode_wrong_key_still_valid_witness :
    ∃ w r, encodeV4Facade
        [0x01, 0x8f, 0x4e, 0x7c, 0x3c, 0x4a, 0x70, 0x00, 0x80, 0x00, 0x12, 0x34, 0x56, 0x78, 0x9a, 0xbc]
        ⟨0x0123456789abcdef, 0xfedcba9876543210⟩ = Except.ok w ∧
      decodeV4Facade w ⟨0xdeadbeefdeadbeef, 0x0123456789abcdef⟩ = Except.ok r ∧
      byteAt r 6 >>> 4 = 7 ∧ byteAt r 8 >>> 6 = 2 :=
  decode_wrong_key_still_valid _ _ _ (by decide) (by decide) (by decide)

/-- A 10-byte buffer is a ten-element list. -/
theorem exists_ten (l : List Nat) (h : l.length = 10) :
    ∃ a0 a1 a2 a3 a4 a5 a6 a7 a8 a9,
      l = [a0, a1, a2, a3, a4, a5, a6, a7, a8, a9] := by
  obtain _ | ⟨z0, _ | ⟨z1, _ | ⟨z2, _ | ⟨z3, _ | ⟨z4, _ | ⟨z5, _ | ⟨z6, _ | ⟨z7, _ | ⟨z8, _ | ⟨z9, _ | ⟨z10, l⟩⟩⟩⟩⟩⟩⟩⟩⟩⟩⟩ := l <;>
    first
      | exact ⟨z0, z1, z2, z3, z4, z5, z6, z7, z8, z9, rfl⟩
      | exact absurd h (by simp)

/-- The part of the SipHash computation shared by `computeSipHash` on a
10-byte message and `computeSipHashFixed10Bytes`: state initialization, one
full block, the final block, and finalization, as a function of the block
and final-block words. -/
def sipHash10Tail (key : UUIDv47Key) (message lastBlock : Nat) : Nat :=
  let st : SipState := ⟨0x736f6d6570736575 ^^^ key.k0, 0x646f72616e646f6d ^^^ key.k1,
    0x6c7967656e657261 ^^^ key.k0, 0x7465646279746573 ^^^ key.k1⟩
  let st := sipRoundInlined ⟨st.v0, st.v1, st.v2, st.v3 ^^^ message⟩
  let st := sipRoundInlined st
  let st : SipState := ⟨st.v0 ^^^ message, st.v1, st.v2, st.v3⟩
  let st := sipRoundInlined ⟨st.v0, st.v1, st.v2, st.v3 ^^^ lastBlock⟩
  let st := sipRoundInlined st
  let st : SipState := ⟨st.v0 ^^^ lastBlock, st.v1, st.v2 ^^^ 0xff, st.v3⟩
  let st := sipRoundInlined st
  let st := sipRoundInlined st
  let st := sipRoundInlined st
  let st := sipRoundInlined st
  st.v0 ^^^ st.v1 ^^^ st.v2 ^^^ st.v3

theorem computeSipHashFixed10Bytes_as_tail
    (a0 a1 a2 a3 a4 a5 a6 a7 a8 a9 : Nat) (k : UUIDv47Key) :
    computeSipHashFixed10Bytes [a0, a1, a2, a3, a4, a5, a6, a7, a8, a9] k =
      sipHash10Tail k (readUInt64LE [a0, a1, a2, a3, a4, a5, a6, a7, a8, a9] 0)
        (((10 : Nat) <<< 56) ||| (a9 <<< 8) ||| a8) := rfl

theorem computeSipHash_ten_as_tail
    (a0 a1 a2 a3 a4 a5 a6 a7 a8 a9 : Nat) (k : UUIDv47Key) :
    computeSipHash [a0, a1, a2, a3, a4, a5, a6, a7, a8, a9] k =
      sipHash10Tail k (readUInt64LE [a0, a1, a2, a3, a4, a5, a6, a7, a8, a9] 0)
        ((((10 : Nat) <<< 56) ||| a8) ||| (a9 <<< 8)) := by
  unfold computeSipHash sipHash10Tail
  simp only [List.length_cons, List.length_nil, Nat.zero_add]
  norm_num
  rw [show (10 : Nat) >>> 3 = 1 from rfl, show (10 : Nat) &&& 7 = 2 from rfl]
  rfl

/-- C3: on every 10-byte input buffer and every key, the specialized
`computeSipHashFixed10Bytes` returns exactly the value of the general
`computeSipHash`. -/
theorem fixed10_matches_general (l : List Nat) (k : UUIDv47Key)
    (h10 : l.length = 10) :
    computeSipHashFixed10Bytes l k = computeSipHash l k := by
  obtain ⟨a0, a1, a2, a3, a4, a5, a6, a7, a8, a9, rfl⟩ := exists_ten l h10
  rw [computeSipHashFixed10Bytes_as_tail, computeSipHash_ten_as_tail]
  have hlb : ((10 : Nat) <<< 56) ||| (a9 <<< 8) ||| a8 =
      (((10 : Nat) <<< 56) ||| a8) ||| (a9 <<< 8) := by
    rw [Nat.lor_assoc, Nat.lor_assoc, Nat.lor_comm (a9 <<< 8) a8]
  rw [hlb]

/-- Witness for C3 at a concrete 10-byte message and the reference key. -/
theorem fixed10_matches_general_witness :
    computeSipHashFixed10Bytes [0, 1, 2, 3, 4, 5, 6, 7, 8, 9] refKey =
      computeSipHash [0, 1, 2, 3, 4, 5, 6, 7, 8, 9] refKey :=
  fixed10_matches_general _ _ (by decide)

/-- C2: `computeSipHash` reproduces the published SipHash-2-4 reference
digests for the reference key over sequential-byte messages of lengths 0
through 12 (the digests below are the little-endian reference vectors read
as 64-bit values); but it does *not* reduce the message length mod 256 in
the final block's top byte, so on a 256-byte message it diverges from
standard SipHash-2-4 (`specSipHash24`, which encodes the length mod 256 as
the spec and the reference implementation do). -/
theorem sipHash_vectors_and_length_divergence :
    computeSipHash [] refKey = 0x726fdb47dd0e0e31 ∧
    computeSipHash [0] refKey = 0x74f839c593dc67fd ∧
    computeSipHash [0, 1] refKey = 0x0d6c8009d9a94f5a ∧
    computeSipHash [0, 1, 2] refKey = 0x85676696d7fb7e2d ∧
    computeSipHash [0, 1, 2, 3] refKey = 0xcf2794e0277187b7 ∧
    computeSipHash [0, 1, 2, 3, 4] refKey = 0x18765564cd99a68d ∧
    computeSipHash [0, 1, 2, 3, 4, 5] refKey = 0xcbc9466e58fee3ce ∧
    computeSipHash [0, 1, 2, 3, 4, 5, 6] refKey = 0xab0200f58b01d137 ∧
    computeSipHash [0, 1, 2, 3, 4, 5, 6, 7] refKey = 0x93f5f5799a932462 ∧
    computeSipHash [0, 1, 2, 3, 4, 5, 6, 7, 8] refKey = 0x9e0082df0ba9e4b0 ∧
    computeSipHash [0, 1, 2, 3, 4, 5, 6, 7, 8, 9] refKey = 0x7a5dbbc594ddb9f3 ∧
    computeSipHash [0, 1, 2, 3, 4, 5, 6, 7, 8, 9, 10] refKey = 0xf4b32f46226bada7 ∧
    computeSipHash [0, 1, 2, 3, 4, 5, 6, 7, 8, 9, 10, 11] refKey = 0x751e8fbc860ee5fb ∧
    computeSipHash (List.replicate 256 1) refKey = 0x978006b2c4b5a260 ∧
    specSipHash24 (List.replicate 256 1) refKey = 0x63f336e1d5215f15 ∧
    computeSipHash (List.replicate 256 1) refKey ≠
      specSipHash24 (List.replicate 256 1) refKey := by
  refine ⟨rfl, rfl, rfl, rfl, rfl, rfl, rfl, rfl, rfl, rfl, rfl, rfl, rfl, ?_, ?_, ?_⟩ <;> decide

/-- Running the encode replay on a store holding only the input buffer:
the final store is the input (untouched), the filled message buffer, and
the result buffer holding exactly the pure `encodeBody`; the result
address is the fresh address 2. -/
theorem encodeV4FacadeHeap_run (u : List Nat) (k : UUIDv47Key)
    (h : getUUIDVersion u = 7) :
    encodeV4FacadeHeap [u] 0 k =
      ([u, buildSipHashInput u, encodeBody u k], Except.ok 2) := by
  have h' : getUUIDVersion (hget [u] 0) = 7 := h
  unfold encodeV4FacadeHeap
  rw [if_pos h']
  rw [show ([u] : Heap) ++ [List.replicate 10 0] = [u, List.replicate 10 0] from rfl]
  rw [show ([u] : Heap).length = 1 from rfl]
  rw [show messageWrites [u, List.replicate 10 0] 0 1 = [u, buildSipHashInput u] from rfl]
  unfold encodeAfterMessage
  rw [show hget [u, buildSipHashInput u] 0 = u from rfl]
  rw [show ([u, buildSipHashInput u] : Heap) ++ [u] = [u, buildSipHashInput u, u] from rfl]
  rw [show ([u, buildSipHashInput u] : Heap).length = 2 from rfl]
  rw [show resultPhaseHeap [u, buildSipHashInput u, u] 2
        (read48BitsBE u 0 ^^^ sipMaskFromHeap [u, buildSipHashInput u] 1 k) 4 =
      [u, buildSipHashInput u,
        setVariantRFC4122 (setUUIDVersion (write48BitsBE u
          (read48BitsBE u 0 ^^^ sipMaskFromHeap [u, buildSipHashInput u] 1 k) 0) 4)] from rfl]
  rw [show sipMaskFromHeap [u, buildSipHashInput u] 1 k =
      computeSipHashFixed10Bytes (buildSipHashInput u) k &&& 0x0000ffffffffffff from rfl]
  rfl

/-- Running the decode replay on a store holding only the input buffer. -/
theorem decodeV4FacadeHeap_run (u : List Nat) (k : UUIDv47Key)
    (h : getUUIDVersion u = 4) :
    decodeV4FacadeHeap [u] 0 k =
      ([u, buildSipHashInput u, decodeBody u k], Except.ok 2) := by
  have h' : getUUIDVersion (hget [u] 0) = 4 := h
  unfold decodeV4FacadeHeap
  rw [if_pos h']
  rw [show ([u] : Heap) ++ [List.replicate 10 0] = [u, List.replicate 10 0] from rfl]
  rw [show ([u] : Heap).length = 1 from rfl]
  rw [show messageWrites [u, List.replicate 10 0] 0 1 = [u, buildSipHashInput u] from rfl]
  unfold decodeAfterMessage
  rw [show hget [u, buildSipHashInput u] 0 = u from rfl]
  rw [show ([u, buildSipHashInput u] : Heap) ++ [u] = [u, buildSipHashInput u, u] from rfl]
  rw [show ([u, buildSipHashInput u] : Heap).length = 2 from rfl]
  rw [show resultPhaseHeap [u, buildSipHashInput u, u] 2
        (read48BitsBE u 0 ^^^ sipMaskFromHeap [u, buildSipHashInput u] 1 k) 7 =
      [u, buildSipHashInput u,
        setVariantRFC4122 (setUUIDVersion (write48BitsBE u
          (read48BitsBE u 0 ^^^ sipMaskFromHeap [u, buildSipHashInput u] 1 k) 0) 7)] from rfl]
  rw [show sipMaskFromHeap [u, buildSipHashInput u] 1 k =
      computeSipHashFixed10Bytes (buildSipHashInput u) k &&& 0x0000ffffffffffff from rfl]
  rfl

/-- C9: replaying `encodeV4Facade` and `decodeV4Facade` against the buffer
store with the input buffer at address 0 leaves the input buffer unchanged
byte-for-byte: every store of the source targets the freshly allocated
message buffer (address 1) or the freshly allocated result copy
(address 2), never the input.  On a valid input the result lives at the
fresh address 2 (not 0) and holds exactly the pure `encodeBody` /
`decodeBody` value. -/
theorem input_buffer_not_mutated (u : List Nat) (k : UUIDv47Key) :
    hget (encodeV4FacadeHeap [u] 0 k).1 0 = u ∧
    hget (decodeV4FacadeHeap [u] 0 k).1 0 = u ∧
    (getUUIDVersion u = 7 →
      (encodeV4FacadeHeap [u] 0 k).2 = Except.ok 2 ∧
      hget (encodeV4FacadeHeap [u] 0 k).1 2 = encodeBody u k) ∧
    (getUUIDVersion u = 4 →
      (decodeV4FacadeHeap [u] 0 k).2 = Except.ok 2 ∧
      hget (decodeV4FacadeHeap [u] 0 k).1 2 = decodeBody u k) := by
  refine ⟨?_, ?_, ?_, ?_⟩
  · by_cases h : getUUIDVersion u = 7
    · rw [encodeV4FacadeHeap_run u k h]
      rfl
    · have h' : ¬ getUUIDVersion (hget [u] 0) = 7 := h
      unfold encodeV4FacadeHeap
      rw [if_neg h']
      rfl
  · by_cases h : getUUIDVersion u = 4
    · rw [decodeV4FacadeHeap_run u k h]
      rfl
    · have h' : ¬ getUUIDVersion (hget [u] 0) = 4 := h
      unfold decodeV4FacadeHeap
      rw [if_neg h']
      rfl
  · intro h
    rw [encodeV4FacadeHeap_run u k h]
    exact ⟨rfl, rfl⟩
  · intro h
    rw [decodeV4FacadeHeap_run u k h]
    exact ⟨rfl, rfl⟩

/-- Witness for C9 at a concrete valid version-7 input. -/
theorem input_buffer_not_mutated_witness :
    hget (encodeV4FacadeHeap
      [[0x01, 0x8f, 0x4e, 0x7c, 0x3c, 0x4a, 0x70, 0x00, 0x80, 0x00, 0x12, 0x34, 0x56, 0x78, 0x9a, 0xbc]]
      0 ⟨1, 2⟩).1 0 =
      [0x01, 0x8f, 0x4e, 0x7c, 0x3c, 0x4a, 0x70, 0x00, 0x80, 0x00, 0x12, 0x34, 0x56, 0x78, 0x9a, 0xbc] ∧
    (encodeV4FacadeHeap
      [[0x01, 0x8f, 0x4e, 0x7c, 0x3c, 0x4a, 0x70, 0x00, 0x80, 0x00, 0x12, 0x34, 0x56, 0x78, 0x9a, 0xbc]]
      0 ⟨1, 2⟩).2 = Except.ok 2 :=
  ⟨(input_buffer_not_mutated _ _).1,
   ((input_buffer_not_mutated _ _).2.2.1 (by decide)).1⟩
